import Mathlib

/-!
Verification development for the authentication and session-lifecycle core of
the cashplit mobile client (src/context/AuthContext.tsx, src/services/notifications.ts,
src/app/(auth)/forgot-password.tsx).

The stateful React code is embedded as explicit state passing over `SysState`.
Each asynchronous operation is embedded as
  * a list of atomic state-mutating actions (the mutations it performs, in
    source order), and
  * a result value, computed from the outcomes of its external calls (server
    responses, storage success/failure), mirroring the source's try/catch
    structure.
External collaborators that can fail are given explicit outcome parameters.
The `api` service (`setUserId`, `updatePushToken`) is not part of the source
snapshot; where needed it is modelled from the spec (see the doc comments).
-/

namespace Cashplit

/-- The `User` record of AuthContext.tsx: `{ id, name, email }`. -/
structure User where
  id : String
  name : String
  email : String
deriving DecidableEq, Repr

/-- `JSON.stringify(userData)` for a `User` built field-by-field in source
order (`id`, `name`, `email`), as written to SecureStore under `USER_KEY`.
Escaping is not modelled; see `wellFormed`. -/
def serializeUser (u : User) : String :=
  "\x7b\"id\":\"" ++ u.id ++ "\",\"name\":\"" ++ u.name ++ "\",\"email\":\"" ++ u.email ++ "\"\x7d"

/-- Fields contain no quote or backslash, so that `serializeUser` agrees with
real `JSON.stringify` (which would escape those characters). -/
def wellFormed (u : User) : Prop :=
  ('"' ∉ u.id.data ∧ '\\' ∉ u.id.data) ∧
  ('"' ∉ u.name.data ∧ '\\' ∉ u.name.data) ∧
  ('"' ∉ u.email.data ∧ '\\' ∉ u.email.data)

instance : DecidablePred wellFormed := fun u => by
  unfold wellFormed
  infer_instance

/-- Consume an expected literal character sequence from the front of the
input, failing if it does not match. -/
def dropLiteral : List Char → List Char → Option (List Char)
  | [], rest => some rest
  | _ :: _, [] => none
  | p :: ps, c :: cs => if c = p then dropLiteral ps cs else none

/-- Read a JSON string body: the characters up to (excluding) the first
double quote, which is left in the remainder. Fails if no quote follows. -/
def takeField : List Char → Option (List Char × List Char)
  | [] => none
  | c :: cs =>
    if c = '"' then some ([], c :: cs)
    else
      match takeField cs with
      | some (f, r) => some (c :: f, r)
      | none => none

def jsonHead : List Char := "\x7b\"id\":\"".data
def jsonMid1 : List Char := "\",\"name\":\"".data
def jsonMid2 : List Char := "\",\"email\":\"".data
def jsonTail : List Char := "\"\x7d".data

/-- Parse the persisted record (`JSON.parse` + field extraction) for the
record shape produced by `serializeUser`; any other input is treated as
absence (`none`), matching the catch-all in `loadStoredUser`. -/
def parseUserChars (l : List Char) : Option User :=
  (dropLiteral jsonHead l).bind fun r1 =>
  (takeField r1).bind fun p =>
  (dropLiteral jsonMid1 p.2).bind fun r3 =>
  (takeField r3).bind fun q =>
  (dropLiteral jsonMid2 q.2).bind fun r5 =>
  (takeField r5).bind fun w =>
  if w.2 = jsonTail then some ⟨String.mk p.1, String.mk q.1, String.mk w.1⟩
  else none

def parseUser (s : String) : Option User :=
  parseUserChars s.data

/-- The observable session state: the React `user` state, the SecureStore
value under `USER_KEY`, the id bound by `api.setUserId` (ApiIdentityBinder,
modelled from the spec: it stores the active id or null), and the `isLoading`
flag. -/
structure SysState where
  user : Option User
  storage : Option String
  boundId : Option String
  isLoading : Bool
deriving DecidableEq, Repr

/-- One atomic state mutation or outbound request performed by an operation. -/
inductive Action where
  | netPost (endpoint : String)
  | writeStore (v : String)
  | bindId (i : Option String)
  | setUser (u : Option User)
deriving DecidableEq, Repr

def applyAct : Action → SysState → SysState
  | .netPost _, st => st
  | .writeStore v, st => { st with storage := some v }
  | .bindId i, st => { st with boundId := i }
  | .setUser u, st => { st with user := u }

def runActs : List Action → SysState → SysState
  | [], st => st
  | a :: as, st => runActs as (applyAct a st)

/-- All states passed through while executing a list of actions, the initial
state included. -/
def statesAlong : List Action → SysState → List SysState
  | [], st => [st]
  | a :: as, st => st :: statesAlong as (applyAct a st)

/-- The `{ success, error? }` result returned by every auth operation. -/
structure AuthResult where
  success : Bool
  error : Option String
deriving DecidableEq, Repr

/-- Outcome of `api.post` to an auth endpoint expected to return
`{ user: {id,name,email} }`: a user record, a response without one, or a
rejected request carrying `error.response?.data?.message`. -/
inductive ServerAuthOutcome where
  | user (u : User)
  | noUser
  | err (msg : Option String)
deriving DecidableEq, Repr

/-- State mutations performed by `signIn` (AuthContext.tsx lines 66-93), in
source order: post, then on a user response with a successful storage write,
`setItemAsync`, `api.setUserId`, `setUser`. A throwing `setItemAsync`
(`writeOk = false`) is modelled as an atomic failure: no mutation. -/
def signInActs (_email _password : String) (server : ServerAuthOutcome) (writeOk : Bool) :
    List Action :=
  Action.netPost "/api/auth/signin" ::
    match server with
    | .user u =>
      if writeOk then
        [Action.writeStore (serializeUser u), Action.bindId (some u.id),
         Action.setUser (some u)]
      else []
    | .noUser => []
    | .err _ => []

/-- Result of `signIn`: success on a stored user; `Invalid credentials` when
the response has no user; on any thrown error, the server message if present,
else `Sign in failed` (a storage-write throw carries no `response`). -/
def signInResult (_email _password : String) (server : ServerAuthOutcome) (writeOk : Bool) :
    AuthResult :=
  match server with
  | .user _ => if writeOk then ⟨true, none⟩ else ⟨false, some "Sign in failed"⟩
  | .noUser => ⟨false, some "Invalid credentials"⟩
  | .err m => ⟨false, some (m.getD "Sign in failed")⟩

/-- Outcome of the Google sign-in flow in `signInWithGoogle` (AuthContext.tsx
lines 95-137). `hasPlayServices`/`GoogleSignin.signIn` may throw with one of
the SDK status codes (or some other error); on success the returned info may
or may not carry an `idToken`; with a token the server exchange behaves like
the password endpoint, and the storage write may throw. -/
inductive GoogleFlow where
  | ok (idToken : Option String) (server : ServerAuthOutcome) (writeOk : Bool)
  | cancelled
  | inProgress
  | playServicesUnavailable
  | otherError (msg : Option String)
deriving DecidableEq, Repr

/-- State mutations performed by `signInWithGoogle`, in source order. Every
thrown outcome is caught before any mutation; a missing id token returns
before the server exchange. -/
def googleActs (flow : GoogleFlow) : List Action :=
  match flow with
  | .ok none _ _ => []
  | .ok (some _) server writeOk =>
    Action.netPost "/api/auth/google" ::
      match server with
      | .user u =>
        if writeOk then
          [Action.writeStore (serializeUser u), Action.bindId (some u.id),
           Action.setUser (some u)]
        else []
      | .noUser => []
      | .err _ => []
  | .cancelled => []
  | .inProgress => []
  | .playServicesUnavailable => []
  | .otherError _ => []

/-- Result of `signInWithGoogle`: the catch block maps the three SDK status
codes to fixed messages and everything else to the server message or
`Google sign-in failed`; a response without a user gives
`Google sign-in failed on server`; a missing id token gives
`Failed to get ID token`. -/
def googleResult (flow : GoogleFlow) : AuthResult :=
  match flow with
  | .ok none _ _ => ⟨false, some "Failed to get ID token"⟩
  | .ok (some _) server writeOk =>
    match server with
    | .user _ => if writeOk then ⟨true, none⟩ else ⟨false, some "Google sign-in failed"⟩
    | .noUser => ⟨false, some "Google sign-in failed on server"⟩
    | .err m => ⟨false, some (m.getD "Google sign-in failed")⟩
  | .cancelled => ⟨false, some "Sign in cancelled"⟩
  | .inProgress => ⟨false, some "Sign in in progress"⟩
  | .playServicesUnavailable => ⟨false, some "Play services not available"⟩
  | .otherError m => ⟨false, some (m.getD "Google sign-in failed")⟩

/-- The `SignUpData` profile submitted by `signUp`. -/
structure SignUpData where
  name : String
  email : String
  password : String
  phone : String
  upiId : String
deriving DecidableEq, Repr

/-- Outcome of `api.post('/api/auth/signup', data)`: a `userId`, a response
without one, or a rejected request. -/
inductive SignUpOutcome where
  | userId (i : String)
  | noUserId
  | err (msg : Option String)
deriving DecidableEq, Repr

/-- The session record `signUp` builds on success: the returned user id plus
the submitted `name` and `email`. -/
def signUpUser (d : SignUpData) (i : String) : User :=
  ⟨i, d.name, d.email⟩

/-- State mutations performed by `signUp` (AuthContext.tsx lines 139-166), in
source order. -/
def signUpActs (d : SignUpData) (server : SignUpOutcome) (writeOk : Bool) : List Action :=
  Action.netPost "/api/auth/signup" ::
    match server with
    | .userId i =>
      if writeOk then
        [Action.writeStore (serializeUser (signUpUser d i)),
         Action.bindId (some i), Action.setUser (some (signUpUser d i))]
      else []
    | .noUserId => []
    | .err _ => []

/-- Result of `signUp`: success when a `userId` came back and the write
succeeded; `Registration failed` on a response without one; otherwise the
server message or `Sign up failed`. -/
def signUpResult (_d : SignUpData) (server : SignUpOutcome) (writeOk : Bool) : AuthResult :=
  match server with
  | .userId _ => if writeOk then ⟨true, none⟩ else ⟨false, some "Sign up failed"⟩
  | .noUserId => ⟨false, some "Registration failed"⟩
  | .err m => ⟨false, some (m.getD "Sign up failed")⟩

/-- `forgotPassword` (AuthContext.tsx lines 168-179) posts unconditionally
and performs no state mutation whatsoever. -/
def forgotPasswordActs (_email : String) : List Action :=
  [Action.netPost "/api/auth/forgot-password"]

/-- Result of `forgotPassword`: success on any non-throwing transport
response, else the server message or `Failed to send reset email`. -/
def forgotPasswordResult (_email : String) (transportOk : Bool) (msg : Option String) :
    AuthResult :=
  if transportOk then ⟨true, none⟩ else ⟨false, some (msg.getD "Failed to send reset email")⟩

/-- `signOut` (AuthContext.tsx lines 181-189): deletes the stored record,
binds null and clears the user; a throwing `deleteItemAsync` (`clearOk =
false`) is caught by the surrounding try/catch before `setUserId(null)` and
`setUser(null)` run, leaving the state unchanged. Totality of this function
is the embedding of "signOut never throws". -/
def signOutRun (clearOk : Bool) (st : SysState) : SysState :=
  if clearOk then { st with storage := none, boundId := none, user := none }
  else st

/-- `loadStoredUser` (AuthContext.tsx lines 51-64): read the stored value
(`readOk = false` models a throwing `getItemAsync`, caught); if present and
parsable, set the user and bind its id, without re-writing storage; any
failure is caught; the `finally` clause always ends loading. -/
def loadStoredUser (readOk : Bool) (st : SysState) : SysState :=
  if readOk then
    match st.storage with
    | some s =>
      match parseUser s with
      | some u => { st with user := some u, boundId := some u.id, isLoading := false }
      | none => { st with isLoading := false }
    | none => { st with isLoading := false }
  else { st with isLoading := false }

/-- `handleResetPassword` of the forgot-password screen
(src/app/(auth)/forgot-password.tsx lines 28-32): whether the screen invokes
the `forgotPassword` operation at all — `if (!email) ... return` rejects the
empty email before any call. -/
def handleResetPasswordInvokesOp (email : String) : Bool :=
  if email = "" then false else true

/-- Environment of `registerForPushNotificationsAsync`
(src/services/notifications.ts): device check, existing/requested permission
status, the configured project id, and the token issuance outcome (a throw is
caught and leaves the token unset). -/
structure NotifEnv where
  isDevice : Bool
  existingGranted : Bool
  requestGranted : Bool
  projectId : Option String
  tokenResult : Option String
deriving DecidableEq, Repr

/-- `registerForPushNotificationsAsync` (notifications.ts lines 6-53): on a
physical device, request permission if not already granted; skip without a
final grant or a project id; otherwise return the issued token (none if
issuance threw). The Android channel setup mutates no session state. -/
def registerForPush (e : NotifEnv) : Option String :=
  if e.isDevice then
    if (if e.existingGranted then true else e.requestGranted) then
      match e.projectId with
      | none => none
      | some _ => e.tokenResult
    else none
  else none

/-- Modelled from the spec: `api.updatePushToken` is not in the source
snapshot; per spec §4.2/§6 the ApiIdentityBinder stamps the active user id
onto outbound requests, so the upload carries the id bound at the moment the
request is made. An upload is the pair (token, bound id at upload time). -/
def updatePushToken (tok : String) (st : SysState) : String × Option String :=
  (tok, st.boundId)

/-- The continuation of the push-registration effect (AuthContext.tsx lines
204-215): `registerForPushNotificationsAsync().then(token => { if (token)
api.updatePushToken(token) ... })`. It receives only the token — no captured
session id — and performs the upload against whatever state holds when it
runs. Returns the uploads performed (at most one). -/
def pushEffectUploads (tokenRes : Option String) (st : SysState) :
    List (String × Option String) :=
  match tokenRes with
  | some t => [updatePushToken t st]
  | none => []

/-- `zs` is an interleaving of `xs` and `ys` (order within each preserved):
the schedule of two concurrently running operations' actions. -/
def isInterleaving : List Action → List Action → List Action → Bool
  | xs, ys, [] => xs.isEmpty && ys.isEmpty
  | xs, ys, a :: as =>
    (match xs with
     | x :: xs' => x = a && isInterleaving xs' ys as
     | [] => false)
    ||
    (match ys with
     | y :: ys' => y = a && isInterleaving xs ys' as
     | [] => false)

/-- The payload a single action assigns to the `user` field, if any. -/
def actUser : Action → Option (Option User)
  | .setUser u => some u
  | _ => none

/-- The payload of the last `setUser` action in a list, if any. -/
def lastUserSet : List Action → Option (Option User)
  | [] => none
  | a :: as =>
    match lastUserSet as with
    | some v => some v
    | none => actUser a

lemma dropLiteral_append (p r : List Char) : dropLiteral p (p ++ r) = some r := by
  induction p with
  | nil => rfl
  | cons c cs ih => simp [dropLiteral, ih]

lemma takeField_quote (f r : List Char) (hf : '"' ∉ f) :
    takeField (f ++ '"' :: r) = some (f, '"' :: r) := by
  induction f with
  | nil => simp [takeField]
  | cons c cs ih =>
    rw [List.mem_cons, not_or] at hf
    have hc : ¬ c = '"' := fun h => hf.1 h.symm
    simp [takeField, hc, ih hf.2]

lemma jsonMid1_eq : jsonMid1 = '"' :: ",\"name\":\"".data := by decide

lemma jsonMid2_eq : jsonMid2 = '"' :: ",\"email\":\"".data := by decide

lemma jsonTail_eq : jsonTail = '"' :: "\x7d".data := by decide

lemma takeField_mid1 (f r : List Char) (hf : '"' ∉ f) :
    takeField (f ++ (jsonMid1 ++ r)) = some (f, jsonMid1 ++ r) := by
  rw [jsonMid1_eq, List.cons_append]
  exact takeField_quote _ _ hf

lemma takeField_mid2 (f r : List Char) (hf : '"' ∉ f) :
    takeField (f ++ (jsonMid2 ++ r)) = some (f, jsonMid2 ++ r) := by
  rw [jsonMid2_eq, List.cons_append]
  exact takeField_quote _ _ hf

lemma takeField_tail (f : List Char) (hf : '"' ∉ f) :
    takeField (f ++ jsonTail) = some (f, jsonTail) := by
  rw [jsonTail_eq]
  exact takeField_quote _ _ hf

lemma serializeUser_data (u : User) :
    (serializeUser u).data =
      jsonHead ++ (u.id.data ++ (jsonMid1 ++ (u.name.data ++
        (jsonMid2 ++ (u.email.data ++ jsonTail))))) := by
  simp [serializeUser, String.data_append, jsonHead, jsonMid1, jsonMid2, jsonTail]

/-- The persisted record round-trips: parsing the serialization of any
well-formed user yields that user back. -/
theorem parse_serializeUser (u : User) (h : wellFormed u) :
    parseUser (serializeUser u) = some u := by
  obtain ⟨⟨hid, -⟩, ⟨hname, -⟩, ⟨hemail, -⟩⟩ := h
  unfold parseUser parseUserChars
  rw [serializeUser_data, dropLiteral_append]
  simp only [Option.some_bind]
  rw [takeField_mid1 _ _ hid]
  simp only [Option.some_bind]
  rw [dropLiteral_append]
  simp only [Option.some_bind]
  rw [takeField_mid2 _ _ hname]
  simp only [Option.some_bind]
  rw [dropLiteral_append]
  simp only [Option.some_bind]
  rw [takeField_tail _ hemail]
  simp only [Option.some_bind]
  simp

lemma runActs_user (z : List Action) (st : SysState) :
    (runActs z st).user = (lastUserSet z).getD st.user := by
  induction z generalizing st with
  | nil => rfl
  | cons a as ih =>
    cases h : lastUserSet as with
    | some v => simp [runActs, lastUserSet, h, ih]
    | none => cases a <;> simp [runActs, lastUserSet, h, ih, applyAct, actUser]

lemma isInterleaving_nil {xs ys : List Action} (h : isInterleaving xs ys [] = true) :
    xs = [] ∧ ys = [] := by
  unfold isInterleaving at h
  rw [Bool.and_eq_true] at h
  exact ⟨List.isEmpty_iff.mp h.1, List.isEmpty_iff.mp h.2⟩

lemma isInterleaving_cons {xs ys : List Action} {a : Action} {as : List Action}
    (h : isInterleaving xs ys (a :: as) = true) :
    (∃ xs', xs = a :: xs' ∧ isInterleaving xs' ys as = true) ∨
    (∃ ys', ys = a :: ys' ∧ isInterleaving xs ys' as = true) := by
  unfold isInterleaving at h
  rw [Bool.or_eq_true] at h
  rcases h with h | h
  · cases xs with
    | nil => simp at h
    | cons x xs' =>
      rw [Bool.and_eq_true, decide_eq_true_eq] at h
      exact Or.inl ⟨xs', by rw [h.1], h.2⟩
  · cases ys with
    | nil => simp at h
    | cons y ys' =>
      rw [Bool.and_eq_true, decide_eq_true_eq] at h
      exact Or.inr ⟨ys', by rw [h.1], h.2⟩

lemma lastUserSet_cons (a : Action) (as : List Action) :
    lastUserSet (a :: as) =
      match lastUserSet as with
      | some v => some v
      | none => actUser a := rfl

lemma lastUserSet_cons_none {a : Action} {as : List Action}
    (h : lastUserSet (a :: as) = none) :
    lastUserSet as = none ∧ actUser a = none := by
  rw [lastUserSet_cons] at h
  cases hls : lastUserSet as with
  | some v => rw [hls] at h; simp at h
  | none => rw [hls] at h; exact ⟨rfl, h⟩

lemma lastUserSet_interleave_left :
    ∀ (z xs ys : List Action), isInterleaving xs ys z = true →
      lastUserSet xs = none → lastUserSet z = lastUserSet ys
  | [], xs, ys, h, _ => by
    obtain ⟨hx, hy⟩ := isInterleaving_nil h
    subst hx; subst hy; rfl
  | a :: as, xs, ys, h, hxs => by
    rcases isInterleaving_cons h with ⟨xs', hx, h'⟩ | ⟨ys', hy, h'⟩
    · subst hx
      obtain ⟨h1, h2⟩ := lastUserSet_cons_none hxs
      have ih := lastUserSet_interleave_left as xs' ys h' h1
      rw [lastUserSet_cons, ih]
      cases hys : lastUserSet ys with
      | some v => rfl
      | none => exact h2
    · subst hy
      have ih := lastUserSet_interleave_left as xs ys' h' hxs
      rw [lastUserSet_cons, lastUserSet_cons, ih]

lemma lastUserSet_interleave_right :
    ∀ (z xs ys : List Action), isInterleaving xs ys z = true →
      lastUserSet ys = none → lastUserSet z = lastUserSet xs
  | [], xs, ys, h, _ => by
    obtain ⟨hx, hy⟩ := isInterleaving_nil h
    subst hx; subst hy; rfl
  | a :: as, xs, ys, h, hys => by
    rcases isInterleaving_cons h with ⟨xs', hx, h'⟩ | ⟨ys', hy, h'⟩
    · subst hx
      have ih := lastUserSet_interleave_right as xs' ys h' hys
      rw [lastUserSet_cons, lastUserSet_cons, ih]
    · subst hy
      obtain ⟨h1, h2⟩ := lastUserSet_cons_none hys
      have ih := lastUserSet_interleave_right as xs ys' h' h1
      rw [lastUserSet_cons, ih]
      cases hxs : lastUserSet xs with
      | some v => rfl
      | none => exact h2

/-- The last `setUser` of any interleaving of two action lists is the last
`setUser` of one of them. -/
lemma lastUserSet_interleave :
    ∀ (z xs ys : List Action) (vA vB : Option User),
      isInterleaving xs ys z = true →
      lastUserSet xs = some vA → lastUserSet ys = some vB →
      lastUserSet z = some vA ∨ lastUserSet z = some vB
  | [], xs, ys, vA, vB, h, hA, _ => by
    obtain ⟨hx, hy⟩ := isInterleaving_nil h
    subst hx
    simp [lastUserSet] at hA
  | a :: as, xs, ys, vA, vB, h, hA, hB => by
    rcases isInterleaving_cons h with ⟨xs', hx, h'⟩ | ⟨ys', hy, h'⟩
    · subst hx
      cases hls : lastUserSet xs' with
      | some v' =>
        have hv : some v' = some vA := by
          rw [lastUserSet_cons, hls] at hA; exact hA
        rcases lastUserSet_interleave as xs' ys v' vB h' hls hB with h1 | h1
        · left; rw [lastUserSet_cons, h1]; exact hv
        · right; rw [lastUserSet_cons, h1]
      | none =>
        have h2 := lastUserSet_interleave_left as xs' ys h' hls
        rw [hB] at h2
        right
        rw [lastUserSet_cons, h2]
    · subst hy
      cases hls : lastUserSet ys' with
      | some v' =>
        have hv : some v' = some vB := by
          rw [lastUserSet_cons, hls] at hB; exact hB
        rcases lastUserSet_interleave as xs ys' vA v' h' hA hls with h1 | h1
        · left; rw [lastUserSet_cons, h1]
        · right; rw [lastUserSet_cons, h1]; exact hv
      | none =>
        have h2 := lastUserSet_interleave_right as xs ys' h' hls
        rw [hA] at h2
        left
        rw [lastUserSet_cons, h2]

/-- Claim C1: for every identity-establishing operation (signIn,
signInWithGoogle, signUp), if the adapter reports success but the persistent
storage write fails, the operation returns a failure result and the prior
state is fully retained — in-memory user, persisted record and API identity
binding all unchanged. -/
theorem claim_C1_write_failure_aborts_establish
    (email password t i : String) (u : User) (d : SignUpData) (st : SysState) :
    (signInResult email password (.user u) false).success = false ∧
    runActs (signInActs email password (.user u) false) st = st ∧
    (googleResult (.ok (some t) (.user u) false)).success = false ∧
    runActs (googleActs (.ok (some t) (.user u) false)) st = st ∧
    (signUpResult d (.userId i) false).success = false ∧
    runActs (signUpActs d (.userId i) false) st = st :=
  ⟨rfl, rfl, rfl, rfl, rfl, rfl⟩

/-- Claim C2 counterexample: re-signing in as B while Authenticated as A does
pass through mixed intermediate states — after the storage write, storage
already holds B's record while the binder still holds A's id (trace index 2),
and after the bind, the binder holds B's id while the in-memory session is
still A (trace index 3). The prior identity is never cleared first. -/
theorem claim_C2_counterexample :
    let A : User := ⟨"1", "A", "a@x.com"⟩
    let B : User := ⟨"2", "B", "b@x.com"⟩
    let stA : SysState := ⟨some A, some (serializeUser A), some A.id, false⟩
    let trace := statesAlong (signInActs "b@x.com" "pw" (ServerAuthOutcome.user B) true) stA
    trace.get? 2 = some ⟨some A, some (serializeUser B), some A.id, false⟩ ∧
    trace.get? 3 = some ⟨some A, some (serializeUser B), some B.id, false⟩ ∧
    A.id ≠ B.id := by
  decide

/-- Claim C2 (amended): after a successful re-sign-in as B completes, storage,
binder and memory reference only B — the new record directly overwrites the
old one; but the prior identity is not cleared before B is applied, and
during the transition there are intermediate states mixing the two
identities (see the counterexample). -/
theorem claim_C2_switch_final_references_only_new
    (email password : String) (B : User) (st : SysState) :
    runActs (signInActs email password (.user B) true) st =
      ⟨some B, some (serializeUser B), some B.id, st.isLoading⟩ := by
  cases st
  rfl

/-- Claim C3 counterexample: a genuinely overlapping interleaving of two
concurrent signIn calls in which both calls return success — the second call
is not rejected with an in-progress failure (no single-flight guard exists). -/
theorem claim_C3_counterexample :
    let A : User := ⟨"1", "A", "a@x.com"⟩
    let B : User := ⟨"2", "B", "b@x.com"⟩
    isInterleaving (signInActs "a@x.com" "pw" (ServerAuthOutcome.user A) true)
      (signInActs "b@x.com" "pw" (ServerAuthOutcome.user B) true)
      [Action.netPost "/api/auth/signin", Action.netPost "/api/auth/signin",
       Action.writeStore (serializeUser A), Action.writeStore (serializeUser B),
       Action.bindId (some A.id), Action.bindId (some B.id),
       Action.setUser (some A), Action.setUser (some B)] = true ∧
    signInResult "a@x.com" "pw" (ServerAuthOutcome.user A) true = ⟨true, none⟩ ∧
    signInResult "b@x.com" "pw" (ServerAuthOutcome.user B) true = ⟨true, none⟩ ∧
    signInResult "b@x.com" "pw" (ServerAuthOutcome.user B) true ≠
      ⟨false, some "Sign in in progress"⟩ := by
  decide

/-- Claim C3 (amended): there is no single-flight guard — each call's result
is a function of its own adapter/server outcome only, so under every
interleaving of two successful concurrent signIn calls both return success
and neither receives an in-progress failure; the final state still holds
exactly one session, that of whichever call's setUser step applied last. -/
theorem claim_C3_no_single_flight_guard
    (e1 p1 e2 p2 : String) (A B : User) (st : SysState) (sched : List Action)
    (h : isInterleaving (signInActs e1 p1 (.user A) true)
          (signInActs e2 p2 (.user B) true) sched = true) :
    signInResult e1 p1 (.user A) true = ⟨true, none⟩ ∧
    signInResult e2 p2 (.user B) true = ⟨true, none⟩ ∧
    ((runActs sched st).user = some A ∨ (runActs sched st).user = some B) := by
  have hA : lastUserSet (signInActs e1 p1 (.user A) true) = some (some A) := rfl
  have hB : lastUserSet (signInActs e2 p2 (.user B) true) = some (some B) := rfl
  rcases lastUserSet_interleave sched _ _ (some A) (some B) h hA hB with h1 | h1
  · exact ⟨rfl, rfl, Or.inl (by rw [runActs_user, h1]; rfl)⟩
  · exact ⟨rfl, rfl, Or.inr (by rw [runActs_user, h1]; rfl)⟩

/-- Claim C3 witness: the amended theorem applied to a concrete overlapping
schedule of two successful concurrent signIn calls. -/
theorem claim_C3_no_single_flight_guard_witness :
    signInResult "a@x.com" "pw" (.user ⟨"1", "A", "a@x.com"⟩) true = ⟨true, none⟩ ∧
    signInResult "b@x.com" "pw" (.user ⟨"2", "B", "b@x.com"⟩) true = ⟨true, none⟩ ∧
    ((runActs
        [Action.netPost "/api/auth/signin",
         Action.writeStore (serializeUser ⟨"1", "A", "a@x.com"⟩),
         Action.netPost "/api/auth/signin",
         Action.writeStore (serializeUser ⟨"2", "B", "b@x.com"⟩),
         Action.bindId (some "2"), Action.setUser (some ⟨"2", "B", "b@x.com"⟩),
         Action.bindId (some "1"), Action.setUser (some ⟨"1", "A", "a@x.com"⟩)]
        ⟨none, none, none, false⟩).user = some ⟨"1", "A", "a@x.com"⟩ ∨
     (runActs
        [Action.netPost "/api/auth/signin",
         Action.writeStore (serializeUser ⟨"1", "A", "a@x.com"⟩),
         Action.netPost "/api/auth/signin",
         Action.writeStore (serializeUser ⟨"2", "B", "b@x.com"⟩),
         Action.bindId (some "2"), Action.setUser (some ⟨"2", "B", "b@x.com"⟩),
         Action.bindId (some "1"), Action.setUser (some ⟨"1", "A", "a@x.com"⟩)]
        ⟨none, none, none, false⟩).user = some ⟨"2", "B", "b@x.com"⟩) :=
  claim_C3_no_single_flight_guard "a@x.com" "pw" "b@x.com" "pw"
    ⟨"1", "A", "a@x.com"⟩ ⟨"2", "B", "b@x.com"⟩ ⟨none, none, none, false⟩ _ (by decide)

/-- Claim C4 counterexample: when the storage clear throws, signOut's catch
swallows the error before `setUserId(null)` and `setUser(null)` run, so the
state is left unchanged — the user is not Anonymous and the binder is not
null afterwards, contradicting the claim. -/
theorem claim_C4_counterexample :
    let A : User := ⟨"1", "A", "a@x.com"⟩
    let stA : SysState := ⟨some A, some (serializeUser A), some A.id, false⟩
    signOutRun false stA = stA ∧
    (signOutRun false stA).user = some A ∧
    (signOutRun false stA).boundId ≠ none := by
  decide

/-- Claim C4 (amended): signOut never throws (every failure is caught, which
is the totality of `signOutRun`); when the storage clear succeeds the
resulting state is Anonymous with storage cleared and the binder null, and a
second signOut — whether its clear succeeds or fails — leaves it Anonymous;
but when the storage clear reports an error the state is left entirely
unchanged, so a signed-in user remains signed in. -/
theorem claim_C4_sign_out_behaviour (st : SysState) :
    signOutRun true st = ⟨none, none, none, st.isLoading⟩ ∧
    signOutRun true (signOutRun true st) = ⟨none, none, none, st.isLoading⟩ ∧
    signOutRun false (signOutRun true st) = ⟨none, none, none, st.isLoading⟩ ∧
    signOutRun false st = st := by
  cases st
  exact ⟨rfl, rfl, rfl, rfl⟩

/-- Claim C5 counterexample: the push-registration effect captures no session
id and performs no identity check; when a sign-out completes between token
acquisition and the upload step, the token is still uploaded — stamped with
the post-sign-out null binding — even though the owning session has been
cleared. -/
theorem claim_C5_counterexample :
    let A : User := ⟨"1", "A", "a@x.com"⟩
    let stA : SysState :=
      runActs (signInActs "a@x.com" "pw" (ServerAuthOutcome.user A) true)
        ⟨none, none, none, false⟩
    let env : NotifEnv := ⟨true, true, true, some "proj", some "tok"⟩
    let stOut := signOutRun true stA
    stOut.user = none ∧ stOut.storage = none ∧ stOut.boundId = none ∧
    pushEffectUploads (registerForPush env) stOut = [("tok", none)] := by
  decide

/-- Claim C5 (amended): the registration effect performs at most one upload
per transition into Authenticated, but it captures no session id of the
transition: whenever a token is obtained the upload proceeds unconditionally,
stamped with whatever identity is bound at upload time — including the null
binding left by an intervening sign-out — rather than being skipped. -/
theorem claim_C5_push_upload_unconditional
    (r : Option String) (t : String) (st : SysState) :
    pushEffectUploads (some t) st = [updatePushToken t st] ∧
    updatePushToken t st = (t, st.boundId) ∧
    pushEffectUploads none st = [] ∧
    (pushEffectUploads r st).length ≤ 1 := by
  refine ⟨rfl, rfl, rfl, ?_⟩
  cases r <;> simp [pushEffectUploads]

/-- Claim C6: bootstrap reads the stored record; on a valid record it
transitions to Authenticated, binding the identity without re-writing
storage; on a missing or unparsable record it stays Anonymous with user
null; in all cases (a throwing read included) isLoading starts true and ends
false. -/
theorem claim_C6_bootstrap (str : String) (u : User) (b : Bool) :
    loadStoredUser b ⟨none, none, none, true⟩ = ⟨none, none, none, false⟩ ∧
    (parseUser str = none →
      loadStoredUser true ⟨none, some str, none, true⟩ = ⟨none, some str, none, false⟩) ∧
    (parseUser str = some u →
      loadStoredUser true ⟨none, some str, none, true⟩ =
        ⟨some u, some str, some u.id, false⟩) ∧
    (∀ st : SysState, (loadStoredUser b st).isLoading = false) := by
  refine ⟨?_, ?_, ?_, ?_⟩
  · cases b <;> rfl
  · intro h; simp [loadStoredUser, h]
  · intro h; simp [loadStoredUser, h]
  · intro st
    rcases st with ⟨u0, s0, b0, l0⟩
    cases b with
    | false => rfl
    | true =>
      unfold loadStoredUser
      cases s0 with
      | none => rfl
      | some s =>
        simp only
        cases parseUser s with
        | none => rfl
        | some u2 => rfl

/-- Claim C6 witness: bootstrap on an unparsable record stays Anonymous, and
on a valid record restores the user. -/
theorem claim_C6_bootstrap_witness :
    loadStoredUser true ⟨none, some "garbage", none, true⟩ =
      ⟨none, some "garbage", none, false⟩ ∧
    loadStoredUser true ⟨none, some (serializeUser ⟨"1", "A", "a@x.com"⟩), none, true⟩ =
      ⟨some ⟨"1", "A", "a@x.com"⟩, some (serializeUser ⟨"1", "A", "a@x.com"⟩),
        some "1", false⟩ :=
  ⟨(claim_C6_bootstrap "garbage" ⟨"1", "A", "a@x.com"⟩ true).2.1 (by decide),
   (claim_C6_bootstrap (serializeUser ⟨"1", "A", "a@x.com"⟩) ⟨"1", "A", "a@x.com"⟩
      true).2.2.1 (by decide)⟩

/-- Claim C7: signInWithGoogle maps provider outcomes to the fixed
vocabulary — cancellation, in-progress, services-unavailable, and a generic
failure for anything else — never an unhandled exception (totality of
`googleResult`/`googleActs`); and on every failure outcome the state is
unchanged. -/
theorem claim_C7_google_outcome_vocabulary (m : Option String) (st : SysState) :
    googleResult .cancelled = ⟨false, some "Sign in cancelled"⟩ ∧
    googleResult .inProgress = ⟨false, some "Sign in in progress"⟩ ∧
    googleResult .playServicesUnavailable = ⟨false, some "Play services not available"⟩ ∧
    googleResult (.otherError m) = ⟨false, some (m.getD "Google sign-in failed")⟩ ∧
    (∀ flow : GoogleFlow, (googleResult flow).success = false →
      runActs (googleActs flow) st = st) := by
  refine ⟨rfl, rfl, rfl, rfl, ?_⟩
  intro flow h
  cases flow with
  | ok tok server wOk =>
    cases tok with
    | none => rfl
    | some t =>
      cases server with
      | user u =>
        cases wOk with
        | false => rfl
        | true => simp [googleResult] at h
      | noUser => rfl
      | err m2 => rfl
  | cancelled => rfl
  | inProgress => rfl
  | playServicesUnavailable => rfl
  | otherError m2 => rfl

/-- Claim C7 witness: the cancellation outcome at a concrete Authenticated
state — fixed message and unchanged state. -/
theorem claim_C7_google_outcome_vocabulary_witness :
    googleResult .cancelled = ⟨false, some "Sign in cancelled"⟩ ∧
    runActs (googleActs .cancelled)
        ⟨some ⟨"1", "A", "a@x.com"⟩, some "s", some "1", false⟩ =
      ⟨some ⟨"1", "A", "a@x.com"⟩, some "s", some "1", false⟩ :=
  ⟨(claim_C7_google_outcome_vocabulary none
      ⟨some ⟨"1", "A", "a@x.com"⟩, some "s", some "1", false⟩).1,
   (claim_C7_google_outcome_vocabulary none
      ⟨some ⟨"1", "A", "a@x.com"⟩, some "s", some "1", false⟩).2.2.2.2
      GoogleFlow.cancelled (by decide)⟩

/-- Claim C8: a successful signIn returns success, sets the in-memory user to
the server record, leaves storage holding exactly its JSON serialization,
and re-running bootstrap on that storage (a simulated cold restart) restores
exactly the same session. Well-formedness (no quote or backslash in the
fields) keeps the modelled serializer aligned with real JSON escaping. -/
theorem claim_C8_round_trip (email password : String) (u : User) (st : SysState)
    (h : wellFormed u) :
    signInResult email password (.user u) true = ⟨true, none⟩ ∧
    runActs (signInActs email password (.user u) true) st =
      ⟨some u, some (serializeUser u), some u.id, st.isLoading⟩ ∧
    loadStoredUser true ⟨none, some (serializeUser u), none, true⟩ =
      ⟨some u, some (serializeUser u), some u.id, false⟩ := by
  refine ⟨rfl, by cases st; rfl, ?_⟩
  have hp := parse_serializeUser u h
  simp [loadStoredUser, hp]

/-- Claim C8 witness: Scenario 2 — `signIn` with server record
`{id:"1",name:"A",email:"a@x.com"}`; storage holds exactly that JSON object
and bootstrap restores it. -/
theorem claim_C8_round_trip_witness :
    serializeUser ⟨"1", "A", "a@x.com"⟩ =
      "\x7b\"id\":\"1\",\"name\":\"A\",\"email\":\"a@x.com\"\x7d" ∧
    (signInResult "a@x.com" "pw" (.user ⟨"1", "A", "a@x.com"⟩) true = ⟨true, none⟩ ∧
     runActs (signInActs "a@x.com" "pw" (.user ⟨"1", "A", "a@x.com"⟩) true)
         ⟨none, none, none, false⟩ =
       ⟨some ⟨"1", "A", "a@x.com"⟩, some (serializeUser ⟨"1", "A", "a@x.com"⟩),
         some "1", false⟩ ∧
     loadStoredUser true ⟨none, some (serializeUser ⟨"1", "A", "a@x.com"⟩), none, true⟩ =
       ⟨some ⟨"1", "A", "a@x.com"⟩, some (serializeUser ⟨"1", "A", "a@x.com"⟩),
         some "1", false⟩) :=
  ⟨by decide,
   claim_C8_round_trip "a@x.com" "pw" ⟨"1", "A", "a@x.com"⟩ ⟨none, none, none, false⟩
     (by decide)⟩

/-- Claim C9: forgotPassword returns success whenever the request completes
without transport error, never mutates session state (user, storage and
bound identity are unchanged in every state, Anonymous included), and is
available in every controller state. -/
theorem claim_C9_forgot_password_frame (email : String) (msg : Option String)
    (st : SysState) :
    runActs (forgotPasswordActs email) st = st ∧
    forgotPasswordResult email true msg = ⟨true, none⟩ ∧
    forgotPasswordResult email false msg =
      ⟨false, some (msg.getD "Failed to send reset email")⟩ :=
  ⟨rfl, rfl, rfl⟩

/-- Claim C10 counterexample: with an empty email, signIn, signUp and
forgotPassword all still issue their network request and can even return
success — no validation failure is produced before the network call. -/
theorem claim_C10_counterexample :
    Action.netPost "/api/auth/signin" ∈
      signInActs "" "pw" (ServerAuthOutcome.user ⟨"1", "A", "a@x.com"⟩) true ∧
    signInResult "" "pw" (ServerAuthOutcome.user ⟨"1", "A", "a@x.com"⟩) true =
      ⟨true, none⟩ ∧
    Action.netPost "/api/auth/forgot-password" ∈ forgotPasswordActs "" ∧
    forgotPasswordResult "" true none = ⟨true, none⟩ ∧
    Action.netPost "/api/auth/signup" ∈
      signUpActs ⟨"N", "", "pw", "p", "u"⟩ (SignUpOutcome.userId "9") true := by
  decide

/-- Claim C10 (amended): no validation is performed inside signIn, signUp or
forgotPassword — each issues its network request unconditionally, empty email
included; empty-email validation exists only at the UI layer: the
forgot-password screen returns without invoking the operation when the email
is empty, and invokes it otherwise. -/
theorem claim_C10_validation_only_in_ui (email password : String)
    (server : ServerAuthOutcome) (w : Bool) (d : SignUpData) (sOut : SignUpOutcome) :
    Action.netPost "/api/auth/signin" ∈ signInActs email password server w ∧
    Action.netPost "/api/auth/signup" ∈ signUpActs d sOut w ∧
    Action.netPost "/api/auth/forgot-password" ∈ forgotPasswordActs email ∧
    handleResetPasswordInvokesOp "" = false ∧
    handleResetPasswordInvokesOp "x@y.com" = true := by
  refine ⟨?_, ?_, ?_, rfl, by decide⟩
  · exact List.mem_cons_self _ _
  · exact List.mem_cons_self _ _
  · exact List.mem_cons_self _ _

end Cashplit
